import Mathlib

/-!
Shallow embedding of the WebSocket pub/sub broker (Django/Channels app
`pubsub`): the durable store rows (`models.py`), the in-memory topic
registry and the connection handler (`consumers.py`), and the HTTP
control-plane views (`views.py`).  Machine state is passed explicitly;
wall-clock timestamps are `Nat` parameters; socket sends are modelled by
a `sendOk : Handle → Bool` oracle saying which live handles accept a
write.
-/

namespace PubSubModel

/-- Handle of a live WebSocket consumer instance, identified by its
`connection_id` (a UUID string assigned at accept). -/
abbrev Handle := String

/-- Row of `pubsub_topics` (`models.Topic`); fields not read by the
broker core (creation timestamp, metadata, active flag) are omitted. -/
structure Topic where
  name : String
  message_count : Nat
  subscriber_count : Nat
  last_published : Option Nat
deriving DecidableEq

/-- Row of `pubsub_topic_subscriptions` (`models.TopicSubscription`). -/
structure TopicSubscription where
  connection : Handle
  topic : String
  is_active : Bool
deriving DecidableEq

/-- Row of `pubsub_messages` (`models.Message`); `data` holds the
JSON-serialized publish payload. -/
structure Message where
  id : String
  topic : String
  publisher_connection : Option Handle
  data : String
  published_at : Nat
deriving DecidableEq

/-- The durable store: the three tables the claims are about. -/
structure DB where
  topics : List Topic
  subs : List TopicSubscription
  messages : List Message
deriving DecidableEq

/-- The volatile registry `PubSubConsumer._topic_connections`:
topic name → list of live handles (a Python set, modelled as a
duplicate-free list in iteration order). -/
abbrev Registry := List (String × List Handle)

/-- The `message` sub-object of a broadcast or history envelope. -/
structure MsgBody where
  id : String
  payload : String
  timestamp : Nat
deriving DecidableEq

/-- Outbound JSON envelope; absent JSON fields are `none`. -/
structure Envelope where
  type : String
  topic : Option String := none
  client_id : Option String := none
  request_id : Option String := none
  status : Option String := none
  error : Option String := none
  message_id : Option String := none
  msg : Option String := none
  message : Option MsgBody := none
  publisher_client_id : Option String := none
  timestamp : Option Nat := none
  ts : Option Nat := none
deriving DecidableEq

/-- Registry lookup: the set stored for topic `t`, if present. -/
def regLookup (reg : Registry) (t : String) : Option (List Handle) :=
  (reg.find? (fun e => e.1 == t)).map (fun e => e.2)

/-- `registry[topic]` read with a default of the empty set. -/
def regSnapshot (reg : Registry) (t : String) : List Handle :=
  (regLookup reg t).getD []

/-- Overwrite the set stored for topic `t` (entry must exist). -/
def regSetEntry : Registry → String → List Handle → Registry
  | [], _, _ => []
  | e :: rest, t, hs =>
    if e.1 == t then (e.1, hs) :: regSetEntry rest t hs
    else e :: regSetEntry rest t hs

/-- `del registry[t]`. -/
def regDelete (reg : Registry) (t : String) : Registry :=
  reg.filter (fun e => e.1 != t)

/-- `registry.setdefault(t, set()).add(h)` as done in `handle_subscribe`. -/
def regAdd (reg : Registry) (t : String) (h : Handle) : Registry :=
  match regLookup reg t with
  | none => reg ++ [(t, [h])]
  | some hs => regSetEntry reg t (if hs.contains h then hs else hs ++ [h])

/-- `registry[t].discard(h)` followed by deleting the entry when the set
became empty, as done in `handle_unsubscribe` and `disconnect`. -/
def regDiscard (reg : Registry) (t : String) (h : Handle) : Registry :=
  match regLookup reg t with
  | none => reg
  | some hs =>
    let hs' := hs.filter (fun x => x != h)
    if hs' = [] then regDelete reg t else regSetEntry reg t hs'

/-- Loop body of `PubSubConsumer.broadcast_message`: iterate the
snapshot; skip the publisher; on a send failure discard the handle from
the live registry set and keep going.  Returns (attempted, delivered,
registry). -/
def broadcast_loop (self : Handle) (sendOk : Handle → Bool) (t : String) :
    List Handle → Registry → List Handle × List Handle × Registry
  | [], reg => ([], [], reg)
  | h :: rest, reg =>
    if h == self then broadcast_loop self sendOk t rest reg
    else if sendOk h then
      let r := broadcast_loop self sendOk t rest reg
      (h :: r.1, h :: r.2.1, r.2.2)
    else
      let reg1 := regSetEntry reg t ((regSnapshot reg t).filter (fun x => x != h))
      let r := broadcast_loop self sendOk t rest reg1
      (h :: r.1, r.2.1, r.2.2)

/-- `PubSubConsumer.broadcast_message`: build the broadcast envelope,
snapshot `registry[topic]` (no sends when absent), and fan out to every
handle in the snapshot other than the publisher.  Result:
(envelope, attempted handles, delivered handles, updated registry). -/
def broadcast_message (reg : Registry) (t : String) (self : Handle)
    (sendOk : Handle → Bool) (mid payload pcid : String) (now : Nat) :
    Envelope × List Handle × List Handle × Registry :=
  let env : Envelope :=
    { type := "message", topic := some t,
      message := some { id := mid, payload := payload, timestamp := now },
      publisher_client_id := some pcid }
  match regLookup reg t with
  | none => (env, [], [], reg)
  | some snap =>
    let r := broadcast_loop self sendOk t snap reg
    (env, r.1, r.2.1, r.2.2)

/-- Python truthiness of an optional string field (`if not x:`):
absent and empty string are falsy. -/
def pyTruthy : Option String → Bool
  | none => false
  | some s => s != ""

/-- Hex digit as accepted by Python int(_, 16) per digit. -/
def isHexChar (c : Char) : Bool :=
  c.isDigit || (Char.ofNat 97 ≤ c && c ≤ Char.ofNat 102)
    || (Char.ofNat 65 ≤ c && c ≤ Char.ofNat 70)

/-- Python `str.strip` over the two brace characters, as applied by the
`uuid.UUID` constructor. -/
def stripBraces (cs : List Char) : List Char :=
  let isBrace := fun c => c == Char.ofNat 123 || c == Char.ofNat 125
  ((cs.dropWhile isBrace).reverse.dropWhile isBrace).reverse

/-- Prefix test on character lists. -/
def isPrefixOfChars : List Char → List Char → Bool
  | [], _ => true
  | _ :: _, [] => false
  | p :: ps, c :: cs => p == c && isPrefixOfChars ps cs

/-- Python `str.replace(pat, "")`: left-to-right scan deleting every
occurrence of `pat`; fuelled by the input length so the recursion is
structural. -/
def removeAllAux (pat : List Char) : Nat → List Char → List Char
  | _, [] => []
  | 0, cs => cs
  | fuel + 1, c :: cs =>
    if isPrefixOfChars pat (c :: cs) then
      removeAllAux pat fuel ((c :: cs).drop pat.length)
    else
      c :: removeAllAux pat fuel cs

/-- Delete every occurrence of `pat` from `cs`. -/
def removeAll (pat cs : List Char) : List Char :=
  removeAllAux pat cs.length cs

/-- `PubSubConsumer.is_valid_uuid`: `uuid.UUID(s)` succeeds iff after
removing `urn:` and `uuid:` substrings, stripping surrounding braces and
removing hyphens, 32 hex digits remain. -/
def is_valid_uuid (s : String) : Bool :=
  let cs := removeAll "uuid:".data (removeAll "urn:".data s.data)
  let hex := (stripBraces cs).filter (fun c => c != Char.ofNat 45)
  hex.length == 32 && hex.all isHexChar

/-- `PubSubConsumer.send_error`: error envelope; `request_id` is echoed
only when truthy. -/
def send_error (emsg : String) (request_id : Option String) (now : Nat) : Envelope :=
  if pyTruthy request_id then
    { type := "error", error := some emsg, request_id := request_id,
      timestamp := some now }
  else
    { type := "error", error := some emsg, timestamp := some now }

/-- `Topic.objects.get(name=t)` / `PubSubConsumer.get_topic`. -/
def get_topic (db : DB) (t : String) : Option Topic :=
  db.topics.find? (fun tp => tp.name == t)

/-- Update the topic rows whose (unique) name is `t`. -/
def save_topic_row : List Topic → String → (Topic → Topic) → List Topic
  | [], _, _ => []
  | tp :: rest, t, f =>
    if tp.name == t then f tp :: save_topic_row rest t f
    else tp :: save_topic_row rest t f

/-- Save one topic row through its name key (Django `save` on a row
fetched by the unique `name`). -/
def update_topic (db : DB) (t : String) (f : Topic → Topic) : DB :=
  { db with topics := save_topic_row db.topics t f }

/-- `PubSubConsumer.get_or_create_topic`. -/
def get_or_create_topic (db : DB) (t : String) : Topic × DB :=
  match get_topic db t with
  | some tp => (tp, db)
  | none =>
    let tp : Topic :=
      { name := t, message_count := 0, subscriber_count := 0, last_published := none }
    (tp, { db with topics := db.topics ++ [tp] })

/-- `TopicSubscription.objects.get(connection=c, topic=t)` — matches the
row regardless of its `is_active` flag. -/
def find_subscription (db : DB) (c : Handle) (t : String) : Option TopicSubscription :=
  db.subs.find? (fun s => s.connection == c && s.topic == t)

/-- Update the subscription rows for the (unique) pair `(c, t)`. -/
def save_subscription_rows : List TopicSubscription → Handle → String → Bool →
    List TopicSubscription
  | [], _, _, _ => []
  | s :: rest, c, t, b =>
    if s.connection == c && s.topic == t then
      { s with is_active := b } :: save_subscription_rows rest c t b
    else s :: save_subscription_rows rest c t b

/-- Set `is_active` on the (unique) subscription row for `(c, t)` and save. -/
def set_subscription_active (db : DB) (c : Handle) (t : String) (b : Bool) : DB :=
  { db with subs := save_subscription_rows db.subs c t b }

/-- `topic.subscriptions.filter(is_active=True).count()`. -/
def count_active_subscriptions (db : DB) (t : String) : Nat :=
  (db.subs.filter (fun s => s.topic == t && s.is_active)).length

/-- `PubSubConsumer.subscribe_to_topic`: get-or-create the subscription
row with `is_active := true`, then recount active subscribers and write
the count back via `Topic.update_subscriber_count`. -/
def subscribe_to_topic (db : DB) (c : Handle) (t : String) : DB :=
  let db1 :=
    match find_subscription db c t with
    | some _ => set_subscription_active db c t true
    | none =>
      { db with subs := db.subs ++ [{ connection := c, topic := t, is_active := true }] }
  update_topic db1 t (fun tp => { tp with subscriber_count := count_active_subscriptions db1 t })

/-- `PubSubConsumer.unsubscribe_from_topic`: `none` models the `False`
return on `Topic.DoesNotExist` / `TopicSubscription.DoesNotExist`;
otherwise the row is marked inactive (not deleted) and the active count
is recomputed and written back. -/
def unsubscribe_from_topic (db : DB) (c : Handle) (t : String) : Option DB :=
  match get_topic db t with
  | none => none
  | some _ =>
    match find_subscription db c t with
    | none => none
    | some _ =>
      let db1 := set_subscription_active db c t false
      some (update_topic db1 t
        (fun tp => { tp with subscriber_count := count_active_subscriptions db1 t }))

/-- `PubSubConsumer.publish_message` + `Topic.increment_message_count` +
`Topic.update_last_published`. -/
def publish_message (db : DB) (self : Handle) (t : String) (payload mid : String)
    (now : Nat) : DB :=
  let db1 := { db with messages := db.messages ++
    [{ id := mid, topic := t, publisher_connection := some self,
       data := payload, published_at := now }] }
  update_topic db1 t (fun tp =>
    { tp with message_count := tp.message_count + 1, last_published := some now })

/-- `PubSubConsumer.cleanup_connection`: on disconnect, delete every
subscription row of the connection (then the connection row itself). -/
def cleanup_connection (db : DB) (c : Handle) : DB :=
  { db with subs := db.subs.filter (fun s => s.connection != c) }

/-- Insert a message into a list sorted by `published_at` descending. -/
def insert_desc (m : Message) : List Message → List Message
  | [] => [m]
  | x :: xs =>
    if m.published_at ≤ x.published_at then x :: insert_desc m xs
    else m :: x :: xs

/-- `order_by(-published_at)`: newest first. -/
def order_by_published_desc : List Message → List Message
  | [] => []
  | m :: ms => insert_desc m (order_by_published_desc ms)

/-- `PubSubConsumer.get_last_n_messages`: fetch the newest `last_n`
messages of the topic and shape each as a `message` envelope.  The
envelopes built here carry no `request_id` field. -/
def get_last_n_messages (db : DB) (t : String) (last_n : Int) : List Envelope :=
  let msgs := (order_by_published_desc
    (db.messages.filter (fun m => m.topic == t))).take last_n.toNat
  msgs.map (fun m =>
    { type := "message", topic := some t,
      message := some { id := m.id, payload := m.data, timestamp := m.published_at } })

/-- `PubSubConsumer.send_last_n_messages_async`: sends exactly the
envelopes returned by `get_last_n_messages`; its `request_id` argument
is received but never used. -/
def send_last_n_messages_async (db : DB) (t : String) (last_n : Int)
    (request_id : String) : List Envelope :=
  get_last_n_messages db t last_n

/-- Combined broker state: durable store plus volatile registry. -/
structure Sys where
  db : DB
  reg : Registry
deriving DecidableEq

/-- Parsed inbound frame; absent JSON members are `none`.
`message_payload` is the serialized `message` object (`none` models a
missing or empty, hence falsy, `message`). -/
structure Frame where
  type : Option String := none
  request_id : Option String := none
  topic : Option String := none
  client_id : Option String := none
  message_payload : Option String := none
  last_n : Int := 0
deriving DecidableEq

/-- `PubSubConsumer.handle_subscribe`: validate `topic` and `client_id`,
get-or-create the topic, upsert the subscription, attach the handle to
the registry, send the `subscribed` ack, then history when
`last_n > 0`. -/
def handle_subscribe (sys : Sys) (self : Handle) (fr : Frame) (request_id : String)
    (now : Nat) : List Envelope × Sys :=
  if !(pyTruthy fr.topic) then
    ([send_error "Missing topic name" (some request_id) now], sys)
  else if !(pyTruthy fr.client_id) then
    ([send_error "Missing client_id" (some request_id) now], sys)
  else
    let t := fr.topic.getD ""
    let cid := fr.client_id.getD ""
    let db1 := (get_or_create_topic sys.db t).2
    let db2 := subscribe_to_topic db1 self t
    let reg' := regAdd sys.reg t self
    let ack : Envelope :=
      { type := "subscribed", topic := some t, client_id := some cid,
        request_id := some request_id, status := some "success", timestamp := some now }
    let history :=
      if fr.last_n > 0 then send_last_n_messages_async db2 t fr.last_n request_id else []
    (ack :: history, { db := db2, reg := reg' })

/-- `PubSubConsumer.handle_unsubscribe`: validate, run
`unsubscribe_from_topic`; a `False` result is surfaced as an error
envelope, success detaches from the registry and acks `unsubscribed`. -/
def handle_unsubscribe (sys : Sys) (self : Handle) (fr : Frame) (request_id : String)
    (now : Nat) : List Envelope × Sys :=
  if !(pyTruthy fr.topic) then
    ([send_error "Missing topic name" (some request_id) now], sys)
  else if !(pyTruthy fr.client_id) then
    ([send_error "Missing client_id" (some request_id) now], sys)
  else
    let t := fr.topic.getD ""
    let cid := fr.client_id.getD ""
    match unsubscribe_from_topic sys.db self t with
    | none =>
      ([send_error ("Failed to unsubscribe from topic: " ++ t) (some request_id) now], sys)
    | some db' =>
      ([{ type := "unsubscribed", topic := some t, client_id := some cid,
          request_id := some request_id, status := some "success",
          timestamp := some now }],
       { db := db', reg := regDiscard sys.reg t self })

/-- `PubSubConsumer.handle_publish`: validate; the topic must already
exist (`get_topic`, not get-or-create) else `Topic not found`; persist
the message, ack `published`, then fan out via `broadcast_message`. -/
def handle_publish (sys : Sys) (self : Handle) (fr : Frame) (request_id : String)
    (now : Nat) (mid : String) (sendOk : Handle → Bool) : List Envelope × Sys :=
  if !(pyTruthy fr.topic) then
    ([send_error "Missing topic name" (some request_id) now], sys)
  else if fr.message_payload = none then
    ([send_error "Missing message data" (some request_id) now], sys)
  else if !(pyTruthy fr.client_id) then
    ([send_error "Missing client_id" (some request_id) now], sys)
  else
    let t := fr.topic.getD ""
    let cid := fr.client_id.getD ""
    match get_topic sys.db t with
    | none => ([send_error ("Topic not found: " ++ t) (some request_id) now], sys)
    | some _ =>
      let payload := fr.message_payload.getD ""
      let db1 := publish_message sys.db self t payload mid now
      let ack : Envelope :=
        { type := "published", topic := some t, message_id := some mid,
          client_id := some cid, request_id := some request_id,
          status := some "success", timestamp := some now }
      let r := broadcast_message sys.reg t self sendOk mid payload cid now
      ([ack], { db := db1, reg := r.2.2.2 })

/-- `PubSubConsumer.handle_ping`. -/
def handle_ping (sys : Sys) (request_id : String) (now : Nat) : List Envelope × Sys :=
  ([{ type := "pong", request_id := some request_id, timestamp := some now }], sys)

/-- Result of processing one inbound frame: envelopes sent back to the
requester, the new state, which handler (if any) the frame was
dispatched to, and whether the handler closed the socket (the source
never closes from `receive`). -/
structure ReceiveOut where
  outputs : List Envelope
  sys : Sys
  dispatched : Option String
  closed : Bool
deriving DecidableEq

/-- `PubSubConsumer.receive` on an already-JSON-parsed frame: reject a
missing or non-UUID `request_id` with an error envelope that carries no
`request_id`, otherwise dispatch on `type`. -/
def receive (sys : Sys) (self : Handle) (fr : Frame) (now : Nat) (mid : String)
    (sendOk : Handle → Bool) : ReceiveOut :=
  if !(pyTruthy fr.request_id) || !(is_valid_uuid (fr.request_id.getD "")) then
    { outputs := [send_error "Invalid or missing request_id" none now],
      sys := sys, dispatched := none, closed := false }
  else
    let rid := fr.request_id.getD ""
    if fr.type = some "subscribe" then
      let r := handle_subscribe sys self fr rid now
      { outputs := r.1, sys := r.2, dispatched := some "handle_subscribe", closed := false }
    else if fr.type = some "unsubscribe" then
      let r := handle_unsubscribe sys self fr rid now
      { outputs := r.1, sys := r.2, dispatched := some "handle_unsubscribe", closed := false }
    else if fr.type = some "publish" then
      let r := handle_publish sys self fr rid now mid sendOk
      { outputs := r.1, sys := r.2, dispatched := some "handle_publish", closed := false }
    else if fr.type = some "ping" then
      let r := handle_ping sys rid now
      { outputs := r.1, sys := r.2, dispatched := some "handle_ping", closed := false }
    else
      { outputs := [send_error
          ("Unknown message type: " ++ (match fr.type with | some s => s | none => "None"))
          (some rid) now],
        sys := sys, dispatched := none, closed := false }

/-- `PubSubConsumer.notify_topic_deleted`: when the topic has a registry
entry, snapshot it, attempt the deletion-notice envelope to every handle
in the snapshot (send failures only shrink the local copy), then delete
the registry entry.  Returns (envelope, attempted handles, registry). -/
def notify_topic_deleted (reg : Registry) (t : String) (now : Nat) :
    Envelope × List Handle × Registry :=
  let env : Envelope :=
    { type := "info", topic := some t, msg := some "topic_deleted", ts := some now }
  match regLookup reg t with
  | none => (env, [], reg)
  | some hs => (env, hs, regDelete reg t)

/-- `views.health_check`: `TopicSubscription.objects.count()` — every
subscription row, with no filter on `is_active`. -/
def health_check_subscribers (db : DB) : Nat :=
  db.subs.length

/-- `views.health_check`: `Topic.objects.count()`. -/
def health_check_topics (db : DB) : Nat :=
  db.topics.length

/-- Per-topic subscriber count as computed by both `views.get_stats` and
`views.list_topics`: `TopicSubscription.objects.filter(topic=topic).count()`
— again with no filter on `is_active`. -/
def stats_subscriber_count (db : DB) (t : String) : Nat :=
  (db.subs.filter (fun s => s.topic == t)).length

/-- Per-topic message count in `views.get_stats`. -/
def stats_message_count (db : DB) (t : String) : Nat :=
  (db.messages.filter (fun m => m.topic == t)).length

/-- `views.list_topics` response body: name and subscriber count per topic. -/
def list_topics (db : DB) : List (String × Nat) :=
  db.topics.map (fun tp =>
    (tp.name, (db.subs.filter (fun s => s.topic == tp.name)).length))

/-- `views.get_stats` response body: per topic, message and subscriber
counts. -/
def get_stats (db : DB) : List (String × Nat × Nat) :=
  db.topics.map (fun tp =>
    (tp.name,
     (db.messages.filter (fun m => m.topic == tp.name)).length,
     (db.subs.filter (fun s => s.topic == tp.name)).length))

/-- Outcome of the admin `delete_topic` view. -/
inductive DeleteTopicResult where
  | notFound
  | deleted (status : String) (topic : String)
deriving DecidableEq

/-- `views.delete_topic`: 404 when the topic is unknown; otherwise
delete all subscription rows for the topic, all its message rows, and
the topic row itself, then run `notify_topic_deleted` and answer
`status deleted`. -/
def delete_topic (db : DB) (reg : Registry) (t : String) (now : Nat) :
    DeleteTopicResult × DB × Registry :=
  match get_topic db t with
  | none => (.notFound, db, reg)
  | some _ =>
    let db' : DB :=
      { topics := db.topics.filter (fun tp => tp.name != t),
        subs := db.subs.filter (fun s => s.topic != t),
        messages := db.messages.filter (fun m => m.topic != t) }
    (.deleted "deleted" t, db', (notify_topic_deleted reg t now).2.2)

/-- Names bound in `views.py` by its `from .serializers import (...)`
block; `MessageSerializer` is not among them, so the reference to it in
`get_topic_messages` raises `NameError` at run time. -/
def views_imported_serializer_names : List String :=
  ["TopicSerializer", "TopicCreateSerializer", "TopicDetailSerializer",
   "TopicListResponseSerializer", "TopicCreateResponseSerializer",
   "TopicDeleteResponseSerializer"]

/-- Outcome of the `get_topic_messages` view. -/
inductive MessagesResponse where
  | notFound
  | serverError (error : String)
  | ok (topic : String) (messages : List Message) (total_count : Nat)
       (limit : Int) (offset : Int)
deriving DecidableEq

/-- `views.get_topic_messages`: 404 on unknown topic; clamp `limit` to
100; slice the newest-first messages; serializing them evaluates the
name `MessageSerializer`, which is unbound in the module, so the
handler's `except` turns the `NameError` into a 500 response. -/
def get_topic_messages (db : DB) (t : String) (limit_param offset_param : Int) :
    MessagesResponse :=
  match get_topic db t with
  | none => .notFound
  | some tp =>
    let lim := min limit_param 100
    let off := offset_param
    let msgs := ((order_by_published_desc
      (db.messages.filter (fun m => m.topic == t))).drop off.toNat).take lim.toNat
    if views_imported_serializer_names.contains "MessageSerializer" then
      .ok t msgs tp.message_count lim off
    else
      .serverError "Failed to get topic messages: name MessageSerializer is not defined"

/-- Subscription rows for a (connection, topic) pair. -/
def rows_for (db : DB) (c : Handle) (t : String) : List TopicSubscription :=
  db.subs.filter (fun s => s.connection == c && s.topic == t)

/-! ### Registry lemmas -/

theorem regLookup_regSetEntry_self (reg : Registry) (t : String) (hs : List Handle)
    (hsome : (regLookup reg t).isSome = true) :
    regLookup (regSetEntry reg t hs) t = some hs := by
  induction reg with
  | nil => simp [regLookup] at hsome
  | cons e rest ih =>
    by_cases he : e.1 = t
    · have heb : (e.1 == t) = true := by simp [he]
      simp [regLookup, regSetEntry, heb, he]
    · have heb : (e.1 == t) = false := by simp [he]
      have hsome' : (regLookup rest t).isSome = true := by
        simpa [regLookup, List.find?_cons, heb] using hsome
      have hmain := ih hsome'
      simpa [regLookup, regSetEntry, List.find?_cons, heb] using hmain

theorem broadcast_loop_attempted (self : Handle) (sendOk : Handle → Bool) (t : String)
    (toGo : List Handle) : ∀ (reg : Registry),
    (broadcast_loop self sendOk t toGo reg).1 = toGo.filter (fun h => h != self) := by
  induction toGo with
  | nil => intro reg; rfl
  | cons h rest ih =>
    intro reg
    by_cases hself : h = self
    · have hb : (h == self) = true := by simp [hself]
      simp [broadcast_loop, hb, List.filter_cons, bne, ih]
    · have hb : (h == self) = false := by simp [hself]
      by_cases hok : sendOk h = true
      · simp [broadcast_loop, hb, hok, List.filter_cons, bne, ih]
      · simp [broadcast_loop, hb, hok, List.filter_cons, bne, ih]

theorem broadcast_loop_delivered (self : Handle) (sendOk : Handle → Bool) (t : String)
    (toGo : List Handle) : ∀ (reg : Registry),
    (broadcast_loop self sendOk t toGo reg).2.1 =
      toGo.filter (fun h => h != self && sendOk h) := by
  induction toGo with
  | nil => intro reg; rfl
  | cons h rest ih =>
    intro reg
    by_cases hself : h = self
    · have hb : (h == self) = true := by simp [hself]
      simp [broadcast_loop, hb, List.filter_cons, bne, ih]
    · have hb : (h == self) = false := by simp [hself]
      by_cases hok : sendOk h = true
      · simp [broadcast_loop, hb, hok, List.filter_cons, bne, ih]
      · simp [broadcast_loop, hb, hok, List.filter_cons, bne, ih]

theorem broadcast_loop_regLookup (self : Handle) (sendOk : Handle → Bool) (t : String)
    (toGo : List Handle) : ∀ (reg : Registry) (live : List Handle),
    regLookup reg t = some live →
    regLookup (broadcast_loop self sendOk t toGo reg).2.2 t =
      some (live.filter (fun x =>
        !(toGo.any (fun h => h == x)) || x == self || sendOk x)) := by
  induction toGo with
  | nil =>
    intro reg live hl
    simpa [broadcast_loop] using hl
  | cons h rest ih =>
    intro reg live hl
    by_cases hself : h = self
    · have hb : (h == self) = true := by simp [hself]
      rw [show broadcast_loop self sendOk t (h :: rest) reg
            = broadcast_loop self sendOk t rest reg by simp [broadcast_loop, hb]]
      rw [ih reg live hl]
      congr 1
      apply List.filter_congr
      intro x hx
      by_cases hx2 : h = x
      · have hxs : (x == self) = true := by simp [hx2 ▸ hself]
        simp [hxs]
      · have hx2b : (h == x) = false := by simp [hx2]
        simp [hx2b]
    · have hb : (h == self) = false := by simp [hself]
      by_cases hok : sendOk h = true
      · rw [show broadcast_loop self sendOk t (h :: rest) reg
              = (h :: (broadcast_loop self sendOk t rest reg).1,
                 h :: (broadcast_loop self sendOk t rest reg).2.1,
                 (broadcast_loop self sendOk t rest reg).2.2) by
            simp [broadcast_loop, hb, hok]]
        rw [ih reg live hl]
        congr 1
        apply List.filter_congr
        intro x hx
        by_cases hx2 : h = x
        · have hsx : sendOk x = true := hx2 ▸ hok
          simp [hsx]
        · have hx2b : (h == x) = false := by simp [hx2]
          simp [hx2b]
      · have hokb : sendOk h = false := by simpa using hok
        have hsnap : regSnapshot reg t = live := by simp [regSnapshot, hl]
        have h1 : regLookup (regSetEntry reg t (live.filter (fun x => x != h))) t
            = some (live.filter (fun x => x != h)) :=
          regLookup_regSetEntry_self reg t _ (by simp [hl])
        rw [show broadcast_loop self sendOk t (h :: rest) reg
              = (h :: (broadcast_loop self sendOk t rest
                    (regSetEntry reg t (live.filter (fun x => x != h)))).1,
                 (broadcast_loop self sendOk t rest
                    (regSetEntry reg t (live.filter (fun x => x != h)))).2.1,
                 (broadcast_loop self sendOk t rest
                    (regSetEntry reg t (live.filter (fun x => x != h)))).2.2) by
            simp [broadcast_loop, hb, hokb, hsnap]]
        rw [ih _ _ h1]
        rw [List.filter_filter]
        congr 1
        apply List.filter_congr
        intro x hx
        by_cases hx2 : h = x
        · subst hx2
          have hxb : (h == h) = true := by simp
          simp [hb, hokb, hxb, bne]
        · have hx2b : (h == x) = false := by simp [hx2]
          have hxhb : (x != h) = true := by simp [bne, Ne.symm hx2]
          simp [hx2b, hxhb]

/-- C1: on publish, fan-out attempts the broadcast envelope for exactly
the handles in the snapshot of `registry[topic]` other than the
publisher; every non-publisher handle whose send succeeds is delivered
to even when earlier sends failed; and the registry's set for the topic
afterwards is the snapshot minus exactly the failed handles. -/
theorem C1_broadcast_fanout (reg : Registry) (t : String) (self : Handle)
    (sendOk : Handle → Bool) (mid payload pcid : String) (now : Nat)
    (snap : List Handle) (hsnap : regLookup reg t = some snap) :
    (broadcast_message reg t self sendOk mid payload pcid now).1 =
      { type := "message", topic := some t,
        message := some { id := mid, payload := payload, timestamp := now },
        publisher_client_id := some pcid } ∧
    (broadcast_message reg t self sendOk mid payload pcid now).2.1 =
      snap.filter (fun h => h != self) ∧
    (broadcast_message reg t self sendOk mid payload pcid now).2.2.1 =
      snap.filter (fun h => h != self && sendOk h) ∧
    regLookup (broadcast_message reg t self sendOk mid payload pcid now).2.2.2 t =
      some (snap.filter (fun h => h == self || sendOk h)) := by
  have hred : broadcast_message reg t self sendOk mid payload pcid now =
      ({ type := "message", topic := some t,
         message := some { id := mid, payload := payload, timestamp := now },
         publisher_client_id := some pcid },
       (broadcast_loop self sendOk t snap reg).1,
       (broadcast_loop self sendOk t snap reg).2.1,
       (broadcast_loop self sendOk t snap reg).2.2) := by
    simp [broadcast_message, hsnap]
  rw [hred]
  refine ⟨rfl, broadcast_loop_attempted self sendOk t snap reg,
    broadcast_loop_delivered self sendOk t snap reg, ?_⟩
  rw [broadcast_loop_regLookup self sendOk t snap reg snap hsnap]
  congr 1
  apply List.filter_congr
  intro x hx
  have hany : snap.any (fun h => h == x) = true :=
    List.any_eq_true.mpr ⟨x, hx, by simp⟩
  simp [hany]

/-- Concrete registry for the C1 witness. -/
def regW1 : Registry := [("t", ["a", "pub", "b"])]

theorem C1_broadcast_fanout_witness :
    regLookup regW1 "t" = some ["a", "pub", "b"] ∧
    (broadcast_message regW1 "t" "pub" (fun h => h != "a") "m1" "p1" "c1" 5).2.1 =
      ["a", "b"] ∧
    (broadcast_message regW1 "t" "pub" (fun h => h != "a") "m1" "p1" "c1" 5).2.2.1 =
      ["b"] ∧
    regLookup
      (broadcast_message regW1 "t" "pub" (fun h => h != "a") "m1" "p1" "c1" 5).2.2.2 "t" =
      some ["pub", "b"] := by
  refine ⟨by decide, ?_⟩
  have h := C1_broadcast_fanout regW1 "t" "pub" (fun h => h != "a") "m1" "p1" "c1" 5
    ["a", "pub", "b"] (by decide)
  revert h
  decide

/-! ### Store lemmas -/

theorem find?_save_topic_row (l : List Topic) (t : String) (f : Topic → Topic)
    (hf : ∀ x, (f x).name = x.name) :
    (save_topic_row l t f).find? (fun tp => tp.name == t)
      = (l.find? (fun tp => tp.name == t)).map f := by
  induction l with
  | nil => rfl
  | cons tp rest ih =>
    by_cases h : tp.name = t
    · have hb : (tp.name == t) = true := by simp [h]
      have hfb : ((f tp).name == t) = true := by simp [hf tp, h]
      simp [save_topic_row, hb, hfb, List.find?_cons]
    · have hb : (tp.name == t) = false := by simp [h]
      simp [save_topic_row, hb, List.find?_cons, ih]

theorem get_topic_update_topic (db : DB) (t : String) (f : Topic → Topic)
    (hf : ∀ x, (f x).name = x.name) :
    get_topic (update_topic db t f) t = (get_topic db t).map f := by
  simpa [get_topic, update_topic] using find?_save_topic_row db.topics t f hf

theorem get_topic_update_count (db : DB) (t : String) (n : Nat) :
    get_topic (update_topic db t (fun tp => { tp with subscriber_count := n })) t
      = (get_topic db t).map (fun tp => { tp with subscriber_count := n }) :=
  get_topic_update_topic db t _ (fun _ => rfl)

/-- C3: after a successful subscribe or unsubscribe, the stored
`subscriber_count` of the topic equals the number of its subscription
rows with `is_active = true` — the value is recomputed from the rows and
written back. -/
theorem C3_subscriber_count_recount (db : DB) (c : Handle) (t : String) :
    (∀ tp, get_topic (subscribe_to_topic db c t) t = some tp →
      tp.subscriber_count = count_active_subscriptions (subscribe_to_topic db c t) t) ∧
    (∀ db' tp, unsubscribe_from_topic db c t = some db' → get_topic db' t = some tp →
      tp.subscriber_count = count_active_subscriptions db' t) := by
  constructor
  · intro tp htp
    unfold subscribe_to_topic at htp ⊢
    cases hfs : find_subscription db c t with
    | some s =>
      simp only [hfs] at htp ⊢
      rw [get_topic_update_count] at htp
      cases hg : get_topic (set_subscription_active db c t true) t with
      | none => rw [hg] at htp; simp at htp
      | some tp0 =>
        rw [hg] at htp
        simp only [Option.map_some'] at htp
        rw [← Option.some.inj htp]; rfl
    | none =>
      simp only [hfs] at htp ⊢
      rw [get_topic_update_count] at htp
      cases hg : get_topic
          { db with subs := db.subs ++ [{ connection := c, topic := t, is_active := true }] } t with
      | none => rw [hg] at htp; simp at htp
      | some tp0 =>
        rw [hg] at htp
        simp only [Option.map_some'] at htp
        rw [← Option.some.inj htp]; rfl
  · intro db' tp hun htp
    unfold unsubscribe_from_topic at hun
    cases hg0 : get_topic db t with
    | none => rw [hg0] at hun; simp at hun
    | some tp1 =>
      rw [hg0] at hun
      cases hfs : find_subscription db c t with
      | none => rw [hfs] at hun; simp at hun
      | some s =>
        rw [hfs] at hun
        simp only [Option.some_inj] at hun
        rw [← hun] at htp ⊢
        rw [get_topic_update_count] at htp
        cases hg : get_topic (set_subscription_active db c t false) t with
        | none => rw [hg] at htp; simp at htp
        | some tp0 =>
          rw [hg] at htp
          simp only [Option.map_some'] at htp
          rw [← Option.some.inj htp]; rfl

theorem filter_save_subscription_rows (l : List TopicSubscription) (c : Handle)
    (t : String) (b : Bool) :
    (save_subscription_rows l c t b).filter (fun s => s.connection == c && s.topic == t)
      = (l.filter (fun s => s.connection == c && s.topic == t)).map
          (fun s => { s with is_active := b }) := by
  induction l with
  | nil => rfl
  | cons s rest ih =>
    by_cases hcnd : (s.connection == c && s.topic == t) = true
    · simp [save_subscription_rows, hcnd, List.filter_cons, ih]
    · have hf : (s.connection == c && s.topic == t) = false := by simpa using hcnd
      simp [save_subscription_rows, hf, List.filter_cons, ih]

theorem rows_for_get_or_create (db : DB) (t0 c t : String) :
    rows_for (get_or_create_topic db t0).2 c t = rows_for db c t := by
  unfold get_or_create_topic
  cases get_topic db t0 <;> rfl

theorem rows_for_subscribe_to_topic (db : DB) (c : Handle) (t : String)
    (h : (rows_for db c t).length ≤ 1) :
    (rows_for (subscribe_to_topic db c t) c t).length = 1 ∧
    ∀ s ∈ rows_for (subscribe_to_topic db c t) c t, s.is_active = true := by
  cases hfs : find_subscription db c t with
  | none =>
    have hnil : rows_for db c t = [] := by
      unfold rows_for
      rw [List.filter_eq_nil_iff]
      exact fun a ha => List.find?_eq_none.mp hfs a ha
    have hred : rows_for (subscribe_to_topic db c t) c t
        = rows_for db c t ++ [{ connection := c, topic := t, is_active := true }] := by
      unfold subscribe_to_topic
      simp only [hfs]
      show rows_for { db with subs := db.subs ++ [_] } c t = _
      unfold rows_for
      rw [List.filter_append]
      simp
    rw [hred, hnil]
    simp
  | some s0 =>
    have hfs' : db.subs.find? (fun s => s.connection == c && s.topic == t) = some s0 := hfs
    have hps0 := List.find?_some hfs'
    have hmem : s0 ∈ rows_for db c t :=
      List.mem_filter.mpr ⟨List.mem_of_find?_eq_some hfs', hps0⟩
    have hlen1 : (rows_for db c t).length = 1 := by
      have hpos : 0 < (rows_for db c t).length :=
        List.length_pos.mpr (List.ne_nil_of_mem hmem)
      omega
    have hred : rows_for (subscribe_to_topic db c t) c t
        = (rows_for db c t).map (fun x => { x with is_active := true }) := by
      unfold subscribe_to_topic
      simp only [hfs]
      exact filter_save_subscription_rows db.subs c t true
    rw [hred]
    constructor
    · simp [hlen1]
    · intro x hx
      rcases List.mem_map.mp hx with ⟨y, _, hy⟩
      rw [← hy]

theorem handle_subscribe_valid (sys : Sys) (self : Handle) (fr : Frame) (rid : String)
    (now : Nat) (ht : pyTruthy fr.topic = true) (hc : pyTruthy fr.client_id = true) :
    handle_subscribe sys self fr rid now =
      ({ type := "subscribed", topic := some (fr.topic.getD ""),
         client_id := some (fr.client_id.getD ""), request_id := some rid,
         status := some "success", timestamp := some now } ::
        (if fr.last_n > 0 then
          get_last_n_messages
            (subscribe_to_topic (get_or_create_topic sys.db (fr.topic.getD "")).2 self
              (fr.topic.getD "")) (fr.topic.getD "") fr.last_n
         else []),
       { db := subscribe_to_topic (get_or_create_topic sys.db (fr.topic.getD "")).2 self
           (fr.topic.getD ""),
         reg := regAdd sys.reg (fr.topic.getD "") self }) := by
  unfold handle_subscribe
  rw [ht, hc]
  rfl

/-- C4: subscribing twice for the same (connection, topic) pair leaves
exactly one subscription row for the pair, that row is active, and each
of the two requests is acknowledged with a `subscribed` envelope. -/
theorem C4_double_subscribe_idempotent (sys : Sys) (self : Handle) (fr : Frame)
    (rid1 rid2 : String) (now1 now2 : Nat)
    (ht : pyTruthy fr.topic = true) (hc : pyTruthy fr.client_id = true)
    (huniq : (rows_for sys.db self (fr.topic.getD "")).length ≤ 1) :
    (rows_for (handle_subscribe (handle_subscribe sys self fr rid1 now1).2 self fr
        rid2 now2).2.db self (fr.topic.getD "")).length = 1 ∧
    (∀ s ∈ rows_for (handle_subscribe (handle_subscribe sys self fr rid1 now1).2 self fr
        rid2 now2).2.db self (fr.topic.getD ""), s.is_active = true) ∧
    (handle_subscribe sys self fr rid1 now1).1.head? =
      some { type := "subscribed", topic := some (fr.topic.getD ""),
             client_id := some (fr.client_id.getD ""), request_id := some rid1,
             status := some "success", timestamp := some now1 } ∧
    (handle_subscribe (handle_subscribe sys self fr rid1 now1).2 self fr rid2 now2).1.head? =
      some { type := "subscribed", topic := some (fr.topic.getD ""),
             client_id := some (fr.client_id.getD ""), request_id := some rid2,
             status := some "success", timestamp := some now2 } := by
  have h1 := handle_subscribe_valid sys self fr rid1 now1 ht hc
  have hstep1 := rows_for_subscribe_to_topic
    (get_or_create_topic sys.db (fr.topic.getD "")).2 self (fr.topic.getD "")
    (by rw [rows_for_get_or_create]; exact huniq)
  have hdb1 : (handle_subscribe sys self fr rid1 now1).2.db
      = subscribe_to_topic (get_or_create_topic sys.db (fr.topic.getD "")).2 self
          (fr.topic.getD "") := by rw [h1]
  have h2 := handle_subscribe_valid (handle_subscribe sys self fr rid1 now1).2 self fr
    rid2 now2 ht hc
  have hstep2 := rows_for_subscribe_to_topic
    (get_or_create_topic (handle_subscribe sys self fr rid1 now1).2.db
      (fr.topic.getD "")).2 self (fr.topic.getD "")
    (by rw [rows_for_get_or_create, hdb1]; exact le_of_eq hstep1.1)
  refine ⟨?_, ?_, ?_, ?_⟩
  · rw [h2]
    exact hstep2.1
  · rw [h2]
    exact hstep2.2
  · rw [h1]
    rfl
  · rw [h2]
    rfl

/-- Empty broker state for the C4 witness. -/
def sysW4 : Sys := { db := { topics := [], subs := [], messages := [] }, reg := [] }

/-- Subscribe frame used by several witnesses. -/
def frW4 : Frame :=
  { type := some "subscribe", request_id := some "r", topic := some "t",
    client_id := some "alice", last_n := 0 }

theorem C4_double_subscribe_idempotent_witness :
    pyTruthy frW4.topic = true ∧ pyTruthy frW4.client_id = true ∧
    (rows_for sysW4.db "conn1" (frW4.topic.getD "")).length ≤ 1 ∧
    ((rows_for (handle_subscribe (handle_subscribe sysW4 "conn1" frW4 "r1" 1).2 "conn1" frW4
        "r2" 2).2.db "conn1" (frW4.topic.getD "")).length = 1 ∧
     (∀ s ∈ rows_for (handle_subscribe (handle_subscribe sysW4 "conn1" frW4 "r1" 1).2 "conn1"
        frW4 "r2" 2).2.db "conn1" (frW4.topic.getD ""), s.is_active = true) ∧
     (handle_subscribe sysW4 "conn1" frW4 "r1" 1).1.head? =
       some { type := "subscribed", topic := some (frW4.topic.getD ""),
              client_id := some (frW4.client_id.getD ""), request_id := some "r1",
              status := some "success", timestamp := some 1 } ∧
     (handle_subscribe (handle_subscribe sysW4 "conn1" frW4 "r1" 1).2 "conn1" frW4
        "r2" 2).1.head? =
       some { type := "subscribed", topic := some (frW4.topic.getD ""),
              client_id := some (frW4.client_id.getD ""), request_id := some "r2",
              status := some "success", timestamp := some 2 }) :=
  ⟨by decide, by decide, by decide,
   C4_double_subscribe_idempotent sysW4 "conn1" frW4 "r1" "r2" 1 2
     (by decide) (by decide) (by decide)⟩

theorem find?_save_subscription_rows (l : List TopicSubscription) (c : Handle)
    (t : String) (b : Bool) :
    (save_subscription_rows l c t b).find? (fun s => s.connection == c && s.topic == t)
      = (l.find? (fun s => s.connection == c && s.topic == t)).map
          (fun s => { s with is_active := b }) := by
  induction l with
  | nil => rfl
  | cons s rest ih =>
    by_cases hcnd : (s.connection == c && s.topic == t) = true
    · simp [save_subscription_rows, hcnd, List.find?_cons]
    · have hf : (s.connection == c && s.topic == t) = false := by simpa using hcnd
      simp [save_subscription_rows, hf, List.find?_cons, ih]

theorem unsubscribe_leaves_row (db : DB) (c : Handle) (t : String) (db' : DB)
    (hun : unsubscribe_from_topic db c t = some db') :
    unsubscribe_from_topic db' c t ≠ none := by
  unfold unsubscribe_from_topic at hun
  cases hg0 : get_topic db t with
  | none => rw [hg0] at hun; simp at hun
  | some tp1 =>
    rw [hg0] at hun
    cases hfs : find_subscription db c t with
    | none => rw [hfs] at hun; simp at hun
    | some s =>
      rw [hfs] at hun
      simp only [Option.some_inj] at hun
      subst hun
      unfold unsubscribe_from_topic
      have hg' : get_topic (update_topic (set_subscription_active db c t false) t
          (fun tp => { tp with subscriber_count :=
            count_active_subscriptions (set_subscription_active db c t false) t })) t
          = some { tp1 with subscriber_count :=
              count_active_subscriptions (set_subscription_active db c t false) t } := by
        rw [get_topic_update_count]
        have hsame : get_topic (set_subscription_active db c t false) t = get_topic db t := rfl
        rw [hsame, hg0]
        rfl
      have hfs2 : find_subscription (update_topic (set_subscription_active db c t false) t
          (fun tp => { tp with subscriber_count :=
            count_active_subscriptions (set_subscription_active db c t false) t })) c t
          = some { s with is_active := false } := by
        show (save_subscription_rows db.subs c t false).find?
          (fun s => s.connection == c && s.topic == t) = _
        rw [find?_save_subscription_rows]
        rw [show db.subs.find? (fun s => s.connection == c && s.topic == t) = some s from hfs]
        rfl
      rw [hg', hfs2]
      simp

theorem handle_unsubscribe_valid (sys : Sys) (self : Handle) (fr : Frame) (rid : String)
    (now : Nat) (ht : pyTruthy fr.topic = true) (hc : pyTruthy fr.client_id = true) :
    handle_unsubscribe sys self fr rid now =
      match unsubscribe_from_topic sys.db self (fr.topic.getD "") with
      | none =>
        ([send_error ("Failed to unsubscribe from topic: " ++ fr.topic.getD "")
            (some rid) now], sys)
      | some db' =>
        ([{ type := "unsubscribed", topic := some (fr.topic.getD ""),
            client_id := some (fr.client_id.getD ""), request_id := some rid,
            status := some "success", timestamp := some now }],
         { db := db', reg := regDiscard sys.reg (fr.topic.getD "") self }) := by
  unfold handle_unsubscribe
  rw [ht, hc]
  rfl

/-- States for the C5 scenario: subscribe `conn1` to `t`, then
unsubscribe once. -/
def sysW5a : Sys := (handle_subscribe sysW4 "conn1" frW4 "r1" 1).2

/-- Unsubscribe frame for the C5 scenario. -/
def frW5 : Frame :=
  { type := some "unsubscribe", request_id := some "r", topic := some "t",
    client_id := some "alice" }

/-- State after the first (successful) unsubscribe. -/
def sysW5b : Sys := (handle_unsubscribe sysW5a "conn1" frW5 "r2" 2).2

/-- C5 counterexample: unsubscribe only marks the row inactive, so after
subscribe + successful unsubscribe, a second unsubscribe of the same
pair is answered with a second `unsubscribed` success envelope — not the
error envelope the claim requires. -/
theorem C5_second_unsubscribe_succeeds :
    (handle_unsubscribe sysW5a "conn1" frW5 "r2" 2).1.map (fun e => e.type)
      = ["unsubscribed"] ∧
    (handle_unsubscribe sysW5b "conn1" frW5 "r3" 3).1 =
      [{ type := "unsubscribed", topic := some "t", client_id := some "alice",
         request_id := some "r3", status := some "success", timestamp := some 3 }] ∧
    ∀ e ∈ (handle_unsubscribe sysW5b "conn1" frW5 "r3" 3).1, ¬ e.type = "error" := by
  refine ⟨by decide, by decide, by decide⟩

/-- C5 amended: an unsubscribe is answered with an error envelope
exactly when the topic row or the subscription row does not exist; an
unsubscribe of an existing subscription row (active or not) is answered
with an `unsubscribed` success envelope; and since unsubscribe only
deactivates the row, a repeat unsubscribe cannot produce the error. -/
theorem C5_unsubscribe_error_amended (sys : Sys) (self : Handle) (fr : Frame)
    (rid : String) (now : Nat)
    (ht : pyTruthy fr.topic = true) (hc : pyTruthy fr.client_id = true) :
    (unsubscribe_from_topic sys.db self (fr.topic.getD "") = none →
      handle_unsubscribe sys self fr rid now =
        ([send_error ("Failed to unsubscribe from topic: " ++ fr.topic.getD "")
            (some rid) now], sys)) ∧
    (unsubscribe_from_topic sys.db self (fr.topic.getD "") = none ↔
      (get_topic sys.db (fr.topic.getD "") = none ∨
       find_subscription sys.db self (fr.topic.getD "") = none)) ∧
    (∀ db', unsubscribe_from_topic sys.db self (fr.topic.getD "") = some db' →
      (handle_unsubscribe sys self fr rid now).1 =
        [{ type := "unsubscribed", topic := some (fr.topic.getD ""),
           client_id := some (fr.client_id.getD ""), request_id := some rid,
           status := some "success", timestamp := some now }]) ∧
    (∀ db', unsubscribe_from_topic sys.db self (fr.topic.getD "") = some db' →
      unsubscribe_from_topic db' self (fr.topic.getD "") ≠ none) := by
  refine ⟨?_, ?_, ?_, ?_⟩
  · intro hnone
    rw [handle_unsubscribe_valid sys self fr rid now ht hc, hnone]
  · unfold unsubscribe_from_topic
    cases hg0 : get_topic sys.db (fr.topic.getD "") with
    | none => simp
    | some tp1 =>
      cases hfs : find_subscription sys.db self (fr.topic.getD "") with
      | none => simp
      | some s => simp
  · intro db' hsome
    rw [handle_unsubscribe_valid sys self fr rid now ht hc, hsome]
  · exact fun db' h => unsubscribe_leaves_row sys.db self (fr.topic.getD "") db' h

theorem C5_unsubscribe_error_amended_witness :
    pyTruthy frW5.topic = true ∧ pyTruthy frW5.client_id = true ∧
    unsubscribe_from_topic sysW4.db "conn1" (frW5.topic.getD "") = none ∧
    handle_unsubscribe sysW4 "conn1" frW5 "r9" 9 =
      ([send_error ("Failed to unsubscribe from topic: " ++ frW5.topic.getD "")
          (some "r9") 9], sysW4) :=
  ⟨by decide, by decide, by decide,
   (C5_unsubscribe_error_amended sysW4 "conn1" frW5 "r9" 9 (by decide) (by decide)).1
     (by decide)⟩

theorem find?_topic_filter_ne (l : List Topic) (t : String) :
    (l.filter (fun tp => tp.name != t)).find? (fun tp => tp.name == t) = none := by
  rw [List.find?_eq_none]
  intro x hx
  have h2 := (List.mem_filter.mp hx).2
  intro hb
  rw [beq_iff_eq] at hb
  simp [bne, hb] at h2

theorem regLookup_regDelete (reg : Registry) (t : String) :
    regLookup (regDelete reg t) t = none := by
  have hf : (regDelete reg t).find? (fun e => e.1 == t) = none := by
    rw [List.find?_eq_none]
    intro x hx
    have h2 := (List.mem_filter.mp hx).2
    intro hb
    rw [beq_iff_eq] at hb
    simp [bne, hb] at h2
  simp [regLookup, hf]

/-- C6: deleting an existing topic answers `status deleted`, removes the
topic row and every subscription and message row of the topic, builds
the `info / topic_deleted` notice and attempts it for exactly the
handles in the registry's set for the topic, evicts that registry entry,
and a subsequent publish to the topic (with valid fields) is answered
with the `Topic not found` error and leaves the state unchanged. -/
theorem C6_delete_topic_cascade (db : DB) (reg : Registry) (t : String) (now : Nat)
    (tp : Topic) (htp : get_topic db t = some tp) (hne : ¬ t = "") :
    (delete_topic db reg t now).1 = DeleteTopicResult.deleted "deleted" t ∧
    get_topic (delete_topic db reg t now).2.1 t = none ∧
    (∀ s ∈ (delete_topic db reg t now).2.1.subs, ¬ s.topic = t) ∧
    (∀ m ∈ (delete_topic db reg t now).2.1.messages, ¬ m.topic = t) ∧
    (notify_topic_deleted reg t now).1 =
      { type := "info", topic := some t, msg := some "topic_deleted", ts := some now } ∧
    (notify_topic_deleted reg t now).2.1 = regSnapshot reg t ∧
    regLookup (delete_topic db reg t now).2.2 t = none ∧
    (∀ (self2 : Handle) (fr : Frame) (rid : String) (now2 : Nat) (mid : String)
        (sendOk : Handle → Bool),
      fr.topic = some t → ¬ fr.message_payload = none → pyTruthy fr.client_id = true →
      handle_publish { db := (delete_topic db reg t now).2.1,
                       reg := (delete_topic db reg t now).2.2 } self2 fr rid now2 mid
          sendOk =
        ([send_error ("Topic not found: " ++ t) (some rid) now2],
         { db := (delete_topic db reg t now).2.1,
           reg := (delete_topic db reg t now).2.2 })) := by
  have hdel : delete_topic db reg t now =
      (DeleteTopicResult.deleted "deleted" t,
       { topics := db.topics.filter (fun tp => tp.name != t),
         subs := db.subs.filter (fun s => s.topic != t),
         messages := db.messages.filter (fun m => m.topic != t) },
       (notify_topic_deleted reg t now).2.2) := by
    unfold delete_topic
    rw [htp]
  refine ⟨by rw [hdel], ?_, ?_, ?_, ?_, ?_, ?_, ?_⟩
  · rw [hdel]
    exact find?_topic_filter_ne db.topics t
  · rw [hdel]
    intro s hs
    have h2 := (List.mem_filter.mp hs).2
    intro hb
    simp [bne, hb] at h2
  · rw [hdel]
    intro m hm
    have h2 := (List.mem_filter.mp hm).2
    intro hb
    simp [bne, hb] at h2
  · unfold notify_topic_deleted
    cases regLookup reg t <;> rfl
  · unfold notify_topic_deleted
    cases hr : regLookup reg t with
    | none => simp [regSnapshot, hr]
    | some hs => simp [regSnapshot, hr]
  · rw [hdel]
    show regLookup (notify_topic_deleted reg t now).2.2 t = none
    unfold notify_topic_deleted
    cases hr : regLookup reg t with
    | none => simp [hr]
    | some hs =>
      simp only [hr]
      exact regLookup_regDelete reg t
  · intro self2 fr rid now2 mid sendOk hft hmsg hcid
    have htb : pyTruthy (some t : Option String) = true := by
      simpa [pyTruthy] using hne
    have hgt : get_topic (delete_topic db reg t now).2.1 t = none := by
      rw [hdel]
      exact find?_topic_filter_ne db.topics t
    unfold handle_publish
    simp [hft, htb, hcid, hmsg, hgt]

/-- Store for the C6 witness: topic `goner` with one subscriber and one
message. -/
def dbW6 : DB :=
  { topics := [{ name := "goner", message_count := 1, subscriber_count := 1,
                 last_published := some 1 }],
    subs := [{ connection := "alice-conn", topic := "goner", is_active := true }],
    messages := [{ id := "m1", topic := "goner", publisher_connection := some "p",
                   data := "d", published_at := 1 }] }

/-- Registry for the C6 witness. -/
def regW6 : Registry := [("goner", ["alice-conn"])]

/-- Publish frame to the deleted topic for the C6 witness. -/
def frW6 : Frame :=
  { type := some "publish", request_id := some "rr", topic := some "goner",
    client_id := some "bob", message_payload := some "x" }

theorem C6_delete_topic_cascade_witness :
    get_topic dbW6 "goner" =
      some { name := "goner", message_count := 1, subscriber_count := 1,
             last_published := some 1 } ∧
    ¬ "goner" = "" ∧
    (delete_topic dbW6 regW6 "goner" 7).1 = DeleteTopicResult.deleted "deleted" "goner" ∧
    get_topic (delete_topic dbW6 regW6 "goner" 7).2.1 "goner" = none ∧
    (notify_topic_deleted regW6 "goner" 7).1 =
      { type := "info", topic := some "goner", msg := some "topic_deleted",
        ts := some 7 } ∧
    (notify_topic_deleted regW6 "goner" 7).2.1 = regSnapshot regW6 "goner" ∧
    regLookup (delete_topic dbW6 regW6 "goner" 7).2.2 "goner" = none ∧
    handle_publish { db := (delete_topic dbW6 regW6 "goner" 7).2.1,
                     reg := (delete_topic dbW6 regW6 "goner" 7).2.2 } "bob-conn" frW6
        "r7" 8 "mX" (fun _ => true) =
      ([send_error ("Topic not found: " ++ "goner") (some "r7") 8],
       { db := (delete_topic dbW6 regW6 "goner" 7).2.1,
         reg := (delete_topic dbW6 regW6 "goner" 7).2.2 }) := by
  have h := C6_delete_topic_cascade dbW6 regW6 "goner" 7
    { name := "goner", message_count := 1, subscriber_count := 1,
      last_published := some 1 } (by decide) (by decide)
  exact ⟨by decide, by decide, h.1, h.2.1, h.2.2.2.2.1, h.2.2.2.2.2.1,
    h.2.2.2.2.2.2.1,
    h.2.2.2.2.2.2.2 "bob-conn" frW6 "r7" 8 "mX" (fun _ => true)
      (by decide) (by decide) (by decide)⟩

/-- Store for the C7 scenario: an existing topic with one message. -/
def dbW7 : DB :=
  { topics := [{ name := "orders", message_count := 1, subscriber_count := 0,
                 last_published := some 1 }],
    subs := [],
    messages := [{ id := "m1", topic := "orders", publisher_connection := some "p",
                   data := "d", published_at := 1 }] }

/-- C7 (code bug): for an existing topic the messages endpoint never
returns the `ok` shape — `views.py` does not import `MessageSerializer`,
so serialization raises `NameError` and the handler answers a 500 error
(the limit clamp is computed but its result is unreachable in the
response). -/
theorem C7_messages_endpoint_name_error :
    get_topic_messages dbW7 "orders" 101 0 =
      MessagesResponse.serverError
        "Failed to get topic messages: name MessageSerializer is not defined" ∧
    ∀ topic msgs total lim off,
      ¬ get_topic_messages dbW7 "orders" 101 0
          = MessagesResponse.ok topic msgs total lim off := by
  have h1 : get_topic_messages dbW7 "orders" 101 0 =
      MessagesResponse.serverError
        "Failed to get topic messages: name MessageSerializer is not defined" := by
    decide
  refine ⟨h1, ?_⟩
  intro topic msgs total lim off hok
  rw [h1] at hok
  exact MessagesResponse.noConfusion hok

theorem length_save_subscription_rows (l : List TopicSubscription) (c : Handle)
    (t : String) (b : Bool) :
    (save_subscription_rows l c t b).length = l.length := by
  induction l with
  | nil => rfl
  | cons s rest ih =>
    by_cases hcnd : (s.connection == c && s.topic == t) = true
    · simp [save_subscription_rows, hcnd, ih]
    · have hf : (s.connection == c && s.topic == t) = false := by simpa using hcnd
      simp [save_subscription_rows, hf, ih]

theorem length_filter_topic_save (l : List TopicSubscription) (c : Handle) (t : String)
    (b : Bool) (t' : String) :
    ((save_subscription_rows l c t b).filter (fun s => s.topic == t')).length
      = (l.filter (fun s => s.topic == t')).length := by
  induction l with
  | nil => rfl
  | cons s rest ih =>
    by_cases hcnd : (s.connection == c && s.topic == t) = true
    · by_cases ht' : (s.topic == t') = true
      · simp [save_subscription_rows, hcnd, List.filter_cons, ht', ih]
      · have hf' : (s.topic == t') = false := by simpa using ht'
        simp [save_subscription_rows, hcnd, List.filter_cons, hf', ih]
    · have hf : (s.connection == c && s.topic == t) = false := by simpa using hcnd
      by_cases ht' : (s.topic == t') = true
      · simp [save_subscription_rows, hf, List.filter_cons, ht', ih]
      · have hf' : (s.topic == t') = false := by simpa using ht'
        simp [save_subscription_rows, hf, List.filter_cons, hf', ih]

theorem length_filter_split_active (l : List TopicSubscription) (t' : String) :
    (l.filter (fun s => s.topic == t')).length
      = (l.filter (fun s => s.topic == t' && s.is_active)).length
        + (l.filter (fun s => s.topic == t' && !s.is_active)).length := by
  induction l with
  | nil => rfl
  | cons s rest ih =>
    by_cases ht' : (s.topic == t') = true
    · by_cases ha : s.is_active = true
      · simp [List.filter_cons, ht', ha]
        omega
      · have ha' : s.is_active = false := by simpa using ha
        simp [List.filter_cons, ht', ha']
        omega
    · have hf' : (s.topic == t') = false := by simpa using ht'
      simp [List.filter_cons, hf']
      omega

theorem subs_of_unsubscribe (db : DB) (c : Handle) (t : String) (db' : DB)
    (h : unsubscribe_from_topic db c t = some db') :
    db'.subs = save_subscription_rows db.subs c t false := by
  unfold unsubscribe_from_topic at h
  cases hg : get_topic db t with
  | none => rw [hg] at h; simp at h
  | some tp1 =>
    rw [hg] at h
    cases hfs : find_subscription db c t with
    | none => rw [hfs] at h; simp at h
    | some s =>
      rw [hfs] at h
      simp only [Option.some_inj] at h
      rw [← h]
      rfl

/-- C9: the subscriber numbers reported by the health, stats and topics
endpoints count every subscription row regardless of `is_active`; a
successful unsubscribe (which only deactivates the row) changes none of
them, so they can exceed the recounted `subscriber_count` field; only
the disconnect cleanup, which deletes the rows, removes them from the
counts. -/
theorem C9_endpoint_counts_ignore_is_active (db : DB) (c : Handle) (t : String) :
    (∀ t', stats_subscriber_count db t' =
      count_active_subscriptions db t' +
        (db.subs.filter (fun s => s.topic == t' && !s.is_active)).length) ∧
    (∀ t' tp, get_topic db t' = some tp →
      tp.subscriber_count = count_active_subscriptions db t' →
      tp.subscriber_count ≤ stats_subscriber_count db t') ∧
    list_topics db =
      db.topics.map (fun tp => (tp.name, stats_subscriber_count db tp.name)) ∧
    get_stats db = db.topics.map (fun tp =>
      (tp.name, stats_message_count db tp.name, stats_subscriber_count db tp.name)) ∧
    health_check_subscribers db = db.subs.length ∧
    (∀ db', unsubscribe_from_topic db c t = some db' →
      (∀ t', stats_subscriber_count db' t' = stats_subscriber_count db t') ∧
      health_check_subscribers db' = health_check_subscribers db) ∧
    (∀ t', stats_subscriber_count (cleanup_connection db c) t' =
      (db.subs.filter (fun s => s.topic == t' && s.connection != c)).length) ∧
    health_check_subscribers (cleanup_connection db c) =
      (db.subs.filter (fun s => s.connection != c)).length := by
  refine ⟨?_, ?_, rfl, rfl, rfl, ?_, ?_, rfl⟩
  · intro t'
    exact length_filter_split_active db.subs t'
  · intro t' tp _ hrec
    rw [hrec]
    have hsplit := length_filter_split_active db.subs t'
    unfold stats_subscriber_count count_active_subscriptions
    omega
  · intro db' hun
    have hsubs := subs_of_unsubscribe db c t db' hun
    constructor
    · intro t'
      unfold stats_subscriber_count
      rw [hsubs]
      exact length_filter_topic_save db.subs c t false t'
    · unfold health_check_subscribers
      rw [hsubs]
      exact length_save_subscription_rows db.subs c t false
  · intro t'
    show ((db.subs.filter (fun s => s.connection != c)).filter
      (fun s => s.topic == t')).length = _
    rw [List.filter_filter]

/-- Store for the C9 witness: one topic, one active subscription. -/
def dbW9 : DB :=
  { topics := [{ name := "t", message_count := 0, subscriber_count := 1,
                 last_published := none }],
    subs := [{ connection := "c1", topic := "t", is_active := true }],
    messages := [] }

/-- `dbW9` after `c1` unsubscribes: the row is kept, only deactivated,
and the stored `subscriber_count` is recounted to 0. -/
def dbW9u : DB :=
  { topics := [{ name := "t", message_count := 0, subscriber_count := 0,
                 last_published := none }],
    subs := [{ connection := "c1", topic := "t", is_active := false }],
    messages := [] }

theorem C9_endpoint_counts_ignore_is_active_witness :
    unsubscribe_from_topic dbW9 "c1" "t" = some dbW9u ∧
    (∀ t', stats_subscriber_count dbW9u t' = stats_subscriber_count dbW9 t') ∧
    health_check_subscribers dbW9u = health_check_subscribers dbW9 ∧
    stats_subscriber_count dbW9u "t" = 1 ∧
    get_topic dbW9u "t" =
      some { name := "t", message_count := 0, subscriber_count := 0,
             last_published := none } ∧
    stats_subscriber_count (cleanup_connection dbW9u "c1") "t" = 0 := by
  have h := C9_endpoint_counts_ignore_is_active dbW9 "c1" "t"
  have hu := h.2.2.2.2.2.1 dbW9u (by decide)
  exact ⟨by decide, hu.1, hu.2, by decide, by decide, by decide⟩

theorem rows_for_subscribe_to_topic_exists (db : DB) (c : Handle) (t : String) :
    1 ≤ (rows_for (subscribe_to_topic db c t) c t).length ∧
    ∀ s ∈ rows_for (subscribe_to_topic db c t) c t, s.is_active = true := by
  cases hfs : find_subscription db c t with
  | none =>
    have hnil : rows_for db c t = [] := by
      unfold rows_for
      rw [List.filter_eq_nil_iff]
      exact fun a ha => List.find?_eq_none.mp hfs a ha
    have hred : rows_for (subscribe_to_topic db c t) c t
        = rows_for db c t ++ [{ connection := c, topic := t, is_active := true }] := by
      unfold subscribe_to_topic
      simp only [hfs]
      show rows_for { db with subs := db.subs ++ [_] } c t = _
      unfold rows_for
      rw [List.filter_append]
      simp
    rw [hred, hnil]
    constructor
    · simp
    · intro s hs
      simp only [List.nil_append, List.mem_singleton] at hs
      rw [hs]
  | some s0 =>
    have hfs' : db.subs.find? (fun s => s.connection == c && s.topic == t) = some s0 := hfs
    have hps0 := List.find?_some hfs'
    have hmem : s0 ∈ rows_for db c t :=
      List.mem_filter.mpr ⟨List.mem_of_find?_eq_some hfs', hps0⟩
    have hred : rows_for (subscribe_to_topic db c t) c t
        = (rows_for db c t).map (fun x => { x with is_active := true }) := by
      unfold subscribe_to_topic
      simp only [hfs]
      exact filter_save_subscription_rows db.subs c t true
    rw [hred]
    constructor
    · have hpos : 0 < (rows_for db c t).length :=
        List.length_pos.mpr (List.ne_nil_of_mem hmem)
      simpa using hpos
    · intro x hx
      rcases List.mem_map.mp hx with ⟨y, _, hy⟩
      rw [← hy]

theorem regSnapshot_regAdd_contains (reg : Registry) (t : String) (h : Handle) :
    (regSnapshot (regAdd reg t h) t).contains h = true := by
  unfold regAdd
  cases hl : regLookup reg t with
  | none =>
    have hf : reg.find? (fun e => e.1 == t) = none := by
      unfold regLookup at hl
      exact Option.map_eq_none'.mp hl
    unfold regSnapshot regLookup
    rw [List.find?_append, hf]
    simp
  | some hs =>
    have hsome : (regLookup reg t).isSome = true := by rw [hl]; rfl
    unfold regSnapshot
    rw [regLookup_regSetEntry_self reg t _ hsome]
    by_cases hc : hs.contains h = true
    · have hmem : h ∈ hs := by simpa using hc
      simp [hmem]
    · have hcf : hs.contains h = false := by simpa using hc
      have hnm : ¬ h ∈ hs := by simpa using hcf
      simp [hnm]

/-- C10: a subscribe whose `last_n` is zero or negative is not rejected:
the reply is exactly the `subscribed` ack with no history envelopes, the
subscription row exists and is active, and the handle is attached to the
registry's set for the topic. -/
theorem C10_nonpositive_last_n (sys : Sys) (self : Handle) (fr : Frame) (rid : String)
    (now : Nat) (ht : pyTruthy fr.topic = true) (hc : pyTruthy fr.client_id = true)
    (hn : fr.last_n ≤ 0) :
    (handle_subscribe sys self fr rid now).1 =
      [{ type := "subscribed", topic := some (fr.topic.getD ""),
         client_id := some (fr.client_id.getD ""), request_id := some rid,
         status := some "success", timestamp := some now }] ∧
    1 ≤ (rows_for (handle_subscribe sys self fr rid now).2.db self
      (fr.topic.getD "")).length ∧
    (∀ s ∈ rows_for (handle_subscribe sys self fr rid now).2.db self (fr.topic.getD ""),
      s.is_active = true) ∧
    (regSnapshot (handle_subscribe sys self fr rid now).2.reg
      (fr.topic.getD "")).contains self = true := by
  have h1 := handle_subscribe_valid sys self fr rid now ht hc
  have hnn : ¬ (fr.last_n > 0) := by omega
  refine ⟨?_, ?_, ?_, ?_⟩
  · rw [h1, if_neg hnn]
  · rw [h1]
    exact (rows_for_subscribe_to_topic_exists _ self (fr.topic.getD "")).1
  · rw [h1]
    exact (rows_for_subscribe_to_topic_exists _ self (fr.topic.getD "")).2
  · rw [h1]
    exact regSnapshot_regAdd_contains sys.reg (fr.topic.getD "") self

/-- Subscribe frame with a negative `last_n` for the C10 witness. -/
def frW10 : Frame :=
  { type := some "subscribe", request_id := some "r", topic := some "t",
    client_id := some "alice", last_n := -3 }

theorem C10_nonpositive_last_n_witness :
    pyTruthy frW10.topic = true ∧ pyTruthy frW10.client_id = true ∧
    frW10.last_n ≤ 0 ∧
    ((handle_subscribe sysW4 "conn1" frW10 "r1" 1).1 =
      [{ type := "subscribed", topic := some (frW10.topic.getD ""),
         client_id := some (frW10.client_id.getD ""), request_id := some "r1",
         status := some "success", timestamp := some 1 }] ∧
     1 ≤ (rows_for (handle_subscribe sysW4 "conn1" frW10 "r1" 1).2.db "conn1"
       (frW10.topic.getD "")).length ∧
     (∀ s ∈ rows_for (handle_subscribe sysW4 "conn1" frW10 "r1" 1).2.db "conn1"
       (frW10.topic.getD ""), s.is_active = true) ∧
     (regSnapshot (handle_subscribe sysW4 "conn1" frW10 "r1" 1).2.reg
       (frW10.topic.getD "")).contains "conn1" = true) :=
  ⟨by decide, by decide, by decide,
   C10_nonpositive_last_n sysW4 "conn1" frW10 "r1" 1 (by decide) (by decide) (by decide)⟩

/-- Store for the C2 scenario: topic `news` with two persisted messages. -/
def dbW2 : DB :=
  { topics := [{ name := "news", message_count := 2, subscriber_count := 0,
                 last_published := some 2 }],
    subs := [],
    messages :=
      [{ id := "m1", topic := "news", publisher_connection := some "p",
         data := "payload-one", published_at := 1 },
       { id := "m2", topic := "news", publisher_connection := some "p",
         data := "payload-two", published_at := 2 }] }

/-- Broker state for the C2 scenario. -/
def sysW2 : Sys := { db := dbW2, reg := [] }

/-- Subscribe frame with `last_n = 2` for the C2 scenario. -/
def frW2 : Frame :=
  { type := some "subscribe", request_id := some "rq", topic := some "news",
    client_id := some "alice", last_n := 2 }

/-- C2 (code bug): with `last_n = 2` on a topic holding two messages the
handler does emit, after the `subscribed` ack, one `message` envelope
per fetched message newest-first — but the envelopes built by
`get_last_n_messages` carry no `request_id` at all, although the
original request id is passed down (and ignored) by
`send_last_n_messages_async`. -/
theorem C2_history_envelopes_lack_request_id :
    (handle_subscribe sysW2 "conn2" frW2 "rq-original" 9).1 =
      [{ type := "subscribed", topic := some "news", client_id := some "alice",
         request_id := some "rq-original", status := some "success",
         timestamp := some 9 },
       { type := "message", topic := some "news",
         message := some { id := "m2", payload := "payload-two", timestamp := 2 } },
       { type := "message", topic := some "news",
         message := some { id := "m1", payload := "payload-one", timestamp := 1 } }] ∧
    ∀ e ∈ (handle_subscribe sysW2 "conn2" frW2 "rq-original" 9).1.drop 1,
      e.request_id = none := by
  refine ⟨by decide, by decide⟩

/-- C8: a frame whose `request_id` is missing, empty, or not a parsable
UUID is answered with exactly the error envelope
`type error, error "Invalid or missing request_id"` carrying no
`request_id`; nothing is dispatched, the state is unchanged and the
socket is not closed; and a subsequent well-formed ping on the same
connection is answered with a `pong`. -/
theorem C8_invalid_request_id (sys : Sys) (self : Handle) (fr : Frame) (now : Nat)
    (mid : String) (sendOk : Handle → Bool)
    (hbad : pyTruthy fr.request_id = false ∨
      is_valid_uuid (fr.request_id.getD "") = false) :
    receive sys self fr now mid sendOk =
      { outputs := [{ type := "error", error := some "Invalid or missing request_id",
                      timestamp := some now }],
        sys := sys, dispatched := none, closed := false } ∧
    (∀ e ∈ (receive sys self fr now mid sendOk).outputs, e.request_id = none) ∧
    (∀ (rid2 : String) (now2 : Nat), is_valid_uuid rid2 = true → ¬ rid2 = "" →
      receive sys self { type := some "ping", request_id := some rid2 } now2 mid sendOk =
        { outputs := [{ type := "pong", request_id := some rid2, timestamp := some now2 }],
          sys := sys, dispatched := some "handle_ping", closed := false }) := by
  have hcond : (!pyTruthy fr.request_id
      || !is_valid_uuid (fr.request_id.getD "")) = true := by
    rcases hbad with h | h <;> simp [h]
  have hred : receive sys self fr now mid sendOk =
      { outputs := [{ type := "error", error := some "Invalid or missing request_id",
                      timestamp := some now }],
        sys := sys, dispatched := none, closed := false } := by
    unfold receive
    rw [hcond]
    rfl
  refine ⟨hred, ?_, ?_⟩
  · rw [hred]
    intro e he
    simp only [List.mem_singleton] at he
    rw [he]
  · intro rid2 now2 hval hne
    have hpt : pyTruthy (some rid2) = true := by simp [pyTruthy, hne]
    unfold receive
    simp [hpt, hval, handle_ping]

/-- Frame from the spec example: a publish with no `request_id`. -/
def frW8 : Frame := { type := some "publish", topic := some "t" }

theorem C8_invalid_request_id_witness :
    (pyTruthy frW8.request_id = false ∨
      is_valid_uuid (frW8.request_id.getD "") = false) ∧
    receive sysW4 "conn1" frW8 4 "m" (fun _ => true) =
      { outputs := [{ type := "error", error := some "Invalid or missing request_id",
                      timestamp := some 4 }],
        sys := sysW4, dispatched := none, closed := false } ∧
    receive sysW4 "conn1"
        { type := some "ping", request_id := some "00112233445566778899aabbccddeeff" }
        5 "m" (fun _ => true) =
      { outputs := [{ type := "pong",
                      request_id := some "00112233445566778899aabbccddeeff",
                      timestamp := some 5 }],
        sys := sysW4, dispatched := some "handle_ping", closed := false } := by
  have h := C8_invalid_request_id sysW4 "conn1" frW8 4 "m" (fun _ => true)
    (Or.inl (by decide))
  exact ⟨Or.inl (by decide), h.1,
    h.2.2 "00112233445566778899aabbccddeeff" 5 (by decide) (by decide)⟩

/-- Store with one topic and no rows, for the C3 witness. -/
def dbW3 : DB :=
  { topics := [{ name := "t", message_count := 0, subscriber_count := 5,
                 last_published := none }],
    subs := [], messages := [] }

theorem C3_subscriber_count_recount_witness :
    get_topic (subscribe_to_topic dbW3 "c" "t") "t" =
      some { name := "t", message_count := 0, subscriber_count := 1,
             last_published := none } ∧
    ({ name := "t", message_count := 0, subscriber_count := 1,
       last_published := none } : Topic).subscriber_count
      = count_active_subscriptions (subscribe_to_topic dbW3 "c" "t") "t" := by
  refine ⟨by decide, ?_⟩
  exact (C3_subscriber_count_recount dbW3 "c" "t").1 _ (by decide)

end PubSubModel
